import Mathlib

/-!
Verification development for the dual-mode Slack CLI client
(`src/lib/slack-client.ts` and the `mark-read` action of
`src/commands/conversations.ts`).

The embedding is shallow: each facade method of `SlackClient` is modelled by
the parameter mapping it hands to `this.request` (a list of key/value pairs in
the insertion order of the TypeScript object), and the cookie transport
(`browserRequest`) is modelled by the form body it would serialize from such a
mapping.  JavaScript values that can appear in a mapping are modelled by
`JsValue`; `undefined`-valued properties are representable, since their
serialization behaviour is exactly what several claims are about.
-/

/-- A JavaScript value as it can occur in a `Record<string, any>` parameter
mapping of the client: a string, a (natural) number, a boolean, or
`undefined`.  Numbers appearing in the client are non-negative integers
(limits, counts, pages, byte lengths), so `Nat` is adequate and
`JS String(n)` agrees with `toString n` on them. -/
inductive JsValue where
  | str (s : String)
  | num (n : Nat)
  | bool (b : Bool)
  | undef
deriving DecidableEq, Repr

/-- A parameter mapping: the key/value pairs of a TypeScript object literal in
insertion order.  Keys are unique in every mapping the client builds. -/
abbrev Params := List (String × JsValue)

/-- WebIDL `ToString` conversion applied by the `URLSearchParams` record
constructor to each property value: strings pass through, numbers print in
decimal, booleans print as `true`/`false`, and `undefined` prints as the
literal string `undefined`. -/
def jsToString : JsValue → String
  | .str s => s
  | .num n => toString n
  | .bool b => if b then "true" else "false"
  | .undef => "undefined"

/-- One step of JavaScript object-spread: assigning key `k` to value `v` on an
object keeps the key's original position when it is already present and
appends it otherwise. -/
def objInsert (obj : Params) (k : String) (v : JsValue) : Params :=
  if obj.any (fun p => p.1 = k) then
    obj.map (fun p => if p.1 = k then (k, v) else p)
  else
    obj ++ [(k, v)]

/-- JavaScript object-spread `\x7b ...base, ...ext \x7d`: every property of
`ext` is assigned onto `base` in order. -/
def objSpread (base : Params) (ext : Params) : Params :=
  ext.foldl (fun acc p => objInsert acc p.1 p.2) base

/-- The form body built by `browserRequest` (slack-client.ts:71-74):
`new URLSearchParams(\x7b token: xoxc, ...params \x7d)` — the session form
token followed by every supplied parameter, each value stringified by the
`URLSearchParams` record constructor. -/
def browserRequestFormPairs (xoxc : String) (params : Params) :
    List (String × String) :=
  (objSpread [("token", JsValue.str xoxc)] params).map
    (fun p => (p.1, jsToString p.2))

/-- Model of JavaScript `String.prototype.startsWith`: the receiver's
character sequence begins with the argument's character sequence. -/
def jsStartsWith (s p : String) : Bool :=
  p.data.isPrefixOf s.data

/-- The failure-message normalization of `browserRequest`'s catch block
(slack-client.ts:102-108): a message already carrying the
`Slack API error:` prefix is re-raised unchanged, any other message is
wrapped with the prefix. -/
def wrapError (msg : String) : String :=
  if jsStartsWith msg "Slack API error:" then msg
  else "Slack API error: " ++ msg

/-- A parameter entry present only when the option carries a value: models a
field of an options object that the facade forwards verbatim when supplied. -/
def optField (k : String) (v : Option JsValue) : Params :=
  match v with
  | some x => [(k, x)]
  | none => []

/-- Models `if (options.x) params.x = options.x` for a string option:
the key is included only when the option is supplied and truthy
(JavaScript string truthiness: non-empty). -/
def strOptParam (k : String) (o : Option String) : Params :=
  match o with
  | some s => if s = "" then [] else [(k, JsValue.str s)]
  | none => []

/-- Models `if (options.n) params.n = options.n` for a numeric option:
included only when supplied and truthy (non-zero), kept as a number. -/
def natOptParamNum (k : String) (o : Option Nat) : Params :=
  match o with
  | some n => if n = 0 then [] else [(k, JsValue.num n)]
  | none => []

/-- Models `if (options.n) params.n = String(options.n)` for a numeric option:
included only when supplied and truthy (non-zero), coerced to its decimal
string form. -/
def natOptParamStr (k : String) (o : Option Nat) : Params :=
  match o with
  | some n => if n = 0 then [] else [(k, JsValue.str (toString n))]
  | none => []

/-- Options of `listConversations` (slack-client.ts:117-122). -/
structure ListConversationsOptions where
  types : Option String := none
  limit : Option Nat := none
  exclude_archived : Option Bool := none
  cursor : Option String := none
deriving DecidableEq, Repr

/-- Parameter mapping sent by `listConversations` (slack-client.ts:117-124):
the options object is forwarded to `request` verbatim — every supplied field
appears unchanged, with no truthiness or emptiness filtering. -/
def listConversations (options : ListConversationsOptions) : Params :=
  optField "types" (options.types.map JsValue.str)
    ++ optField "limit" (options.limit.map JsValue.num)
    ++ optField "exclude_archived" (options.exclude_archived.map JsValue.bool)
    ++ optField "cursor" (options.cursor.map JsValue.str)

/-- Parameter mapping sent by `markConversationRead` (slack-client.ts:127-129). -/
def markConversationRead (channel ts : String) : Params :=
  [("channel", JsValue.str channel), ("ts", JsValue.str ts)]

/-- Options shared by `getConversationHistory` and `getConversationReplies`
(slack-client.ts:152-158, 170-176). -/
structure HistoryOptions where
  cursor : Option String := none
  latest : Option String := none
  oldest : Option String := none
  inclusive : Option Bool := none
  limit : Option Nat := none
deriving DecidableEq, Repr

/-- Parameter mapping sent by `getConversationHistory`
(slack-client.ts:152-167): `channel` always; `cursor`/`latest`/`oldest` only
when truthy; `inclusive` whenever supplied (`!== undefined`); `limit` only
when truthy, kept numeric. -/
def getConversationHistory (channel : String) (options : HistoryOptions) : Params :=
  [("channel", JsValue.str channel)]
    ++ strOptParam "cursor" options.cursor
    ++ strOptParam "latest" options.latest
    ++ strOptParam "oldest" options.oldest
    ++ optField "inclusive" (options.inclusive.map JsValue.bool)
    ++ natOptParamNum "limit" options.limit

/-- Parameter mapping sent by `getConversationReplies`
(slack-client.ts:170-185): like history, plus the required thread `ts`. -/
def getConversationReplies (channel ts : String) (options : HistoryOptions) : Params :=
  [("channel", JsValue.str channel), ("ts", JsValue.str ts)]
    ++ strOptParam "cursor" options.cursor
    ++ strOptParam "latest" options.latest
    ++ strOptParam "oldest" options.oldest
    ++ optField "inclusive" (options.inclusive.map JsValue.bool)
    ++ natOptParamNum "limit" options.limit

/-- Options of `searchAll` (slack-client.ts:245-250). -/
structure SearchOptions where
  sort : Option String := none
  sort_dir : Option String := none
  count : Option Nat := none
  page : Option Nat := none
deriving DecidableEq, Repr

/-- Parameter mapping sent by `searchAll` (slack-client.ts:245-258):
`query` always; `sort`/`sort_dir` when truthy; `count`/`page` when truthy,
coerced with `String(...)`. -/
def searchAll (query : String) (options : SearchOptions) : Params :=
  [("query", JsValue.str query)]
    ++ strOptParam "sort" options.sort
    ++ strOptParam "sort_dir" options.sort_dir
    ++ natOptParamStr "count" options.count
    ++ natOptParamStr "page" options.page

/-- Parameter mapping sent by `getUploadUrl` (slack-client.ts:261-266):
`filename` verbatim, `length` coerced with `String(length)`. -/
def getUploadUrl (filename : String) (length : Nat) : Params :=
  [("filename", JsValue.str filename), ("length", JsValue.str (toString length))]

/-- An upload file entry as built by `uploadFiles` and consumed by
`completeUpload` (slack-client.ts:285, 308): identifier plus optional
display title. -/
structure FileEntry where
  id : String
  title : Option String := none
deriving DecidableEq, Repr

/-- One hexadecimal digit, lowercase, as printed by JavaScript. -/
def hexDigit (n : Nat) : Char :=
  if n < 10 then Char.ofNat (48 + n) else Char.ofNat (87 + n)

/-- `JSON.stringify` escaping of a single character inside a string literal. -/
def jsonEscapeChar (c : Char) : String :=
  if c = '"' then "\\\""
  else if c = '\\' then "\\\\"
  else if c = '\x08' then "\\b"
  else if c = '\x09' then "\\t"
  else if c = '\x0a' then "\\n"
  else if c = '\x0c' then "\\f"
  else if c = '\x0d' then "\\r"
  else if c.toNat < 32 then
    "\\u00" ++ String.singleton (hexDigit (c.toNat / 16))
      ++ String.singleton (hexDigit (c.toNat % 16))
  else String.singleton c

/-- `JSON.stringify` of a string value. -/
def jsonQuote (s : String) : String :=
  "\"" ++ String.join (s.data.map jsonEscapeChar) ++ "\""

/-- `JSON.stringify` of one file entry object: the `id` property always, the
`title` property only when it was assigned (absent properties are skipped). -/
def jsonFileEntry (f : FileEntry) : String :=
  "\x7b\"id\":" ++ jsonQuote f.id
    ++ (match f.title with
        | some t => ",\"title\":" ++ jsonQuote t
        | none => "")
    ++ "\x7d"

/-- `JSON.stringify(files)` for the entry array passed to `completeUpload`. -/
def jsonFiles (files : List FileEntry) : String :=
  "[" ++ String.intercalate "," (files.map jsonFileEntry) ++ "]"

/-- Options of `completeUpload` (slack-client.ts:285-289). -/
structure CompleteUploadOptions where
  channel_id : Option String := none
  thread_ts : Option String := none
  initial_comment : Option String := none
deriving DecidableEq, Repr

/-- Parameter mapping sent by `completeUpload` (slack-client.ts:285-298):
`files` is the JSON serialization of the entry array; the three options are
included only when truthy. -/
def completeUpload (files : List FileEntry) (options : CompleteUploadOptions) : Params :=
  [("files", JsValue.str (jsonFiles files))]
    ++ strOptParam "channel_id" options.channel_id
    ++ strOptParam "thread_ts" options.thread_ts
    ++ strOptParam "initial_comment" options.initial_comment

/-- A Slack user record.  The source interface carries many display fields;
only the identity is relevant to the claims, so the record is modelled by its
`id` (a full record would thread through the proofs unchanged). -/
structure SlackUser where
  id : String
deriving DecidableEq, Repr

/-- Response shape of a single `users.info` call (`SlackUserInfoResponse`):
the envelope flag and the optional `user` payload. -/
structure SlackUserInfoResponse where
  ok : Bool
  user : Option SlackUser
deriving DecidableEq, Repr

/-- Response shape of `getUsersInfo` (`SlackUsersInfoResponse`). -/
structure SlackUsersInfoResponse where
  ok : Bool
  users : List SlackUser
deriving DecidableEq, Repr

/-- The loop body of `getUsersInfo` (slack-client.ts:206-216): each identifier
is looked up individually through `getUserInfo`, modelled by the abstract
`lookup` oracle (`Except.error` is a thrown failure); a user is accumulated
when the lookup neither throws nor misses (`response.ok && response.user`),
and every thrown failure is swallowed by the `catch`. -/
def getUsersInfoLoop (lookup : String → Except String SlackUserInfoResponse) :
    List String → List SlackUser → List SlackUser
  | [], users => users
  | userId :: rest, users =>
    match lookup userId with
    | .ok response =>
      if response.ok then
        match response.user with
        | some u => getUsersInfoLoop lookup rest (users ++ [u])
        | none => getUsersInfoLoop lookup rest users
      else getUsersInfoLoop lookup rest users
    | .error _ => getUsersInfoLoop lookup rest users

/-- `getUsersInfo` (slack-client.ts:203-219): runs the loop over the supplied
identifiers starting from an empty accumulator and always returns an envelope
with `ok := true`.  The function is total — the per-user `catch` means no
failure escapes — so its Lean model returns a plain response, not `Except`. -/
def getUsersInfo (lookup : String → Except String SlackUserInfoResponse)
    (userIds : List String) : SlackUsersInfoResponse :=
  { ok := true, users := getUsersInfoLoop lookup userIds [] }

/-- The user a single identifier contributes to the result of `getUsersInfo`:
`some` exactly when the lookup returns (does not throw) with `ok` set and a
`user` payload present. -/
def resolvedUser (lookup : String → Except String SlackUserInfoResponse)
    (userId : String) : Option SlackUser :=
  match lookup userId with
  | .ok response => if response.ok then response.user else none
  | .error _ => none

/-- Whether the individual lookup of `userId` fails (throws). -/
def lookupFails (lookup : String → Except String SlackUserInfoResponse)
    (userId : String) : Bool :=
  match lookup userId with
  | .ok _ => false
  | .error _ => true

/-- The guarantee the two transports give a non-throwing `users.info` call:
the envelope flag is set and the `user` payload is present (`browserRequest`
throws whenever `ok` is false, and the standard transport's library likewise
rejects error envelopes). -/
def lookupWellFormed (lookup : String → Except String SlackUserInfoResponse)
    (userId : String) : Bool :=
  match lookup userId with
  | .ok response => response.ok && response.user.isSome
  | .error _ => true

/-- Model of JavaScript `String.prototype.split` with a single-character
separator, on the character sequence: splitting never yields an empty array,
an empty input yields `[[]]`, and a trailing separator yields a final empty
group — exactly the JS semantics `uploadFiles` relies on. -/
def splitOnChar (sep : Char) : List Char → List (List Char)
  | [] => [[]]
  | c :: cs =>
    match splitOnChar sep cs with
    | [] => [[]]
    | g :: gs => if c = sep then [] :: g :: gs else (c :: g) :: gs

/-- The filename derivation of `uploadFiles` (slack-client.ts:314):
`filePath.split('/').pop() || 'file'` — the last path segment, or the
fallback `file` when that segment is empty. -/
def uploadFilename (filePath : String) : String :=
  let segments := (splitOnChar '/' filePath.data).map String.mk
  let candidate := segments.getLast?.getD ""
  if candidate = "" then "file" else candidate

/-- Response of `files.getUploadURLExternal` (`FileUploadUrlResponse`): the
presigned destination and the file identifier, the two fields `uploadFiles`
destructures. -/
structure FileUploadUrlResponse where
  upload_url : String
  file_id : String
deriving DecidableEq, Repr

/-- One remote call issued by the upload orchestrator, with the arguments the
code passes at that point. -/
inductive UploadCall where
  | slotRequest (filename : String) (length : Nat)
  | transfer (uploadUrl : String) (content : List Nat) (filename : String)
  | finalize (files : List FileEntry)
      (channel_id thread_ts initial_comment : Option String)
deriving DecidableEq, Repr

/-- The environment `uploadFiles` runs against: the bytes behind each path
(the `Bun.file(...).arrayBuffer()` read) and the outcomes of the three remote
steps.  Each oracle is a pure function of the arguments the code passes, so
one file's outcome does not depend on the position of the file in the batch. -/
structure UploadEnv where
  fileContent : String → List Nat
  getUploadUrlResult : String → Nat → Except String FileUploadUrlResponse
  uploadToUrlResult : String → List Nat → String → Except String Unit
  finalizeResult : List FileEntry → Except String Unit

/-- Options of `uploadFiles` (slack-client.ts:301-307); the progress callback
has no effect on the remote calls and is omitted. -/
structure UploadOptions where
  channel_id : Option String := none
  thread_ts : Option String := none
  titles : Option (List String) := none
  initial_comment : Option String := none

/-- The title attached to entry `i`: `options.titles?.[i]` must exist and be
truthy (non-empty), per `if (options.titles?.[i]) entry.title = ...`
(slack-client.ts:322). -/
def titleAt (titles : Option (List String)) (i : Nat) : Option String :=
  match titles with
  | some ts =>
    match ts.get? i with
    | some t => if t = "" then none else some t
    | none => none
  | none => none

/-- The per-file loop of `uploadFiles` (slack-client.ts:310-324): for each
path, derive filename and length, request a slot, transfer the bytes, and
accumulate a `FileEntry`; the first thrown failure aborts the whole loop.
Returns the trace of remote calls issued together with the outcome. -/
def uploadFilesLoop (env : UploadEnv) (titles : Option (List String)) :
    List String → Nat → List FileEntry → List UploadCall →
    List UploadCall × Except String (List FileEntry)
  | [], _, fileEntries, calls => (calls, .ok fileEntries)
  | filePath :: rest, i, fileEntries, calls =>
    let content := env.fileContent filePath
    let filename := uploadFilename filePath
    let length := content.length
    let calls1 := calls ++ [UploadCall.slotRequest filename length]
    match env.getUploadUrlResult filename length with
    | .error e => (calls1, .error e)
    | .ok slot =>
      let calls2 := calls1 ++ [UploadCall.transfer slot.upload_url content filename]
      match env.uploadToUrlResult slot.upload_url content filename with
      | .error e => (calls2, .error e)
      | .ok _ =>
        uploadFilesLoop env titles rest (i + 1)
          (fileEntries ++ [{ id := slot.file_id, title := titleAt titles i }]) calls2

/-- `uploadFiles` (slack-client.ts:301-332): run the per-file loop and, only
if every file completed both steps, issue the single finalize call
(`completeUpload`) binding all accumulated entries; a loop failure
propagates and finalize is never reached. -/
def uploadFiles (env : UploadEnv) (filePaths : List String)
    (options : UploadOptions) : List UploadCall × Except String Unit :=
  match uploadFilesLoop env options.titles filePaths 0 [] [] with
  | (calls, .error e) => (calls, .error e)
  | (calls, .ok fileEntries) =>
    (calls ++ [UploadCall.finalize fileEntries
        options.channel_id options.thread_ts options.initial_comment],
     env.finalizeResult fileEntries)

/-- Whether a trace entry is the finalize call. -/
def isFinalizeCall : UploadCall → Bool
  | .finalize _ _ _ _ => true
  | _ => false

/-- Whether steps 1-2 fail for one file: the slot request for its derived
filename and length throws, or the transfer of its bytes to the returned
destination throws.  Depends only on the path and the environment. -/
def fileStepFails (env : UploadEnv) (filePath : String) : Bool :=
  match env.getUploadUrlResult (uploadFilename filePath)
      (env.fileContent filePath).length with
  | .error _ => true
  | .ok slot =>
    match env.uploadToUrlResult slot.upload_url (env.fileContent filePath)
        (uploadFilename filePath) with
    | .error _ => true
    | .ok _ => false

/-- The file identifier the slot request returns for a path (unused fallback
when the slot request fails). -/
def slotFileId (env : UploadEnv) (filePath : String) : String :=
  match env.getUploadUrlResult (uploadFilename filePath)
      (env.fileContent filePath).length with
  | .ok slot => slot.file_id
  | .error _ => ""

/-- The entry list the orchestrator should hand to finalize when every file
succeeds: one entry per path in input order, entry `i` carrying the slot
request's file identifier for path `i` and a title exactly when a truthy
title is supplied at index `i`. -/
def expectedEntries (env : UploadEnv) (titles : Option (List String)) :
    List String → Nat → List FileEntry
  | [], _ => []
  | filePath :: rest, i =>
    { id := slotFileId env filePath, title := titleAt titles i }
      :: expectedEntries env titles rest (i + 1)

/-- A message as used by the `mark-read` action; the source interface has
more fields, but only the timestamp is read. -/
structure SlackMessage where
  ts : String
deriving DecidableEq, Repr

/-- The remote calls issued by the `mark-read` action
(conversations.ts:356-383), as method name plus the facade's parameter
mapping.  `historyMessages` is the `messages` field of the history response
(`history.messages || []` guards its absence); `timestamp` is the
`--timestamp` option.  When the option is falsy the action first fetches the
latest message (`limit: 1`); with no messages it returns before marking,
otherwise it marks at the first returned message's `ts`. -/
def markReadAction (historyMessages : Option (List SlackMessage))
    (channelId : String) (timestamp : Option String) : List (String × Params) :=
  let ts := match timestamp with
    | some t => if t = "" then none else some t
    | none => none
  match ts with
  | some t => [("conversations.mark", markConversationRead channelId t)]
  | none =>
    ("conversations.history", getConversationHistory channelId { limit := some 1 })
      :: (match historyMessages.getD [] with
          | [] => []
          | m :: _ => [("conversations.mark", markConversationRead channelId m.ts)])

/-- A concrete upload environment whose byte transfer always fails with a raw
HTTP status, used to exercise the fail-fast property on a concrete batch. -/
def envFail : UploadEnv where
  fileContent := fun _ => [104, 105]
  getUploadUrlResult := fun _ _ =>
    Except.ok { upload_url := "https://files.example/slot1", file_id := "F001" }
  uploadToUrlResult := fun _ _ _ => Except.error "File upload failed: HTTP 500"
  finalizeResult := fun _ => Except.ok ()

/-- A concrete upload environment in which every slot request and transfer
succeeds, the slot identifier being derived from the filename. -/
def envOk : UploadEnv where
  fileContent := fun _ => [104, 105]
  getUploadUrlResult := fun filename _ =>
    Except.ok { upload_url := "https://files.example/" ++ filename,
                file_id := "F-" ++ filename }
  uploadToUrlResult := fun _ _ _ => Except.ok ()
  finalizeResult := fun _ => Except.ok ()

/-- A concrete lookup oracle for which exactly the identifier `U2` throws and
every other identifier resolves to a well-formed user response. -/
def lookupW : String → Except String SlackUserInfoResponse :=
  fun userId =>
    if userId = "U2" then Except.error "user_not_found"
    else Except.ok { ok := true, user := some { id := userId } }

theorem mem_objInsert (obj : Params) (k : String) (v : JsValue) (q : String × JsValue)
    (h : q ∈ objInsert obj k v) : (∃ w, (q.1, w) ∈ obj) ∨ q.1 = k := by
  unfold objInsert at h
  by_cases hc : obj.any (fun p => p.1 = k)
  · rw [if_pos hc] at h
    rw [List.mem_map] at h
    obtain ⟨p, hp, hpe⟩ := h
    by_cases hk : p.1 = k
    · rw [if_pos hk] at hpe
      right
      rw [← hpe]
    · rw [if_neg hk] at hpe
      left
      refine ⟨q.2, ?_⟩
      rw [hpe] at hp
      simpa using hp
  · rw [if_neg hc] at h
    rcases List.mem_append.mp h with h1 | h2
    · left; exact ⟨q.2, by simpa using h1⟩
    · right
      have : q = (k, v) := by simpa using h2
      rw [this]

theorem mem_objSpread (base ext : Params) (q : String × JsValue)
    (h : q ∈ objSpread base ext) :
    (∃ w, (q.1, w) ∈ base) ∨ (∃ w, (q.1, w) ∈ ext) := by
  induction ext generalizing base with
  | nil => left; exact ⟨q.2, by simpa using h⟩
  | cons p rest ih =>
    have hstep : objSpread base (p :: rest) = objSpread (objInsert base p.1 p.2) rest := by
      simp [objSpread]
    rw [hstep] at h
    rcases ih (objInsert base p.1 p.2) h with ⟨w, hw⟩ | ⟨w, hw⟩
    · rcases mem_objInsert base p.1 p.2 (q.1, w) hw with ⟨w2, hw2⟩ | hk
      · left; exact ⟨w2, hw2⟩
      · right
        refine ⟨p.2, ?_⟩
        rw [hk, Prod.mk.eta]
        exact List.mem_cons_self _ _
    · right; exact ⟨w, List.mem_cons_of_mem _ hw⟩

theorem wrapped_message_normalized (t : String) :
    jsStartsWith ("Slack API error: " ++ t) "Slack API error:" = true := by
  simp [jsStartsWith, String.data_append, List.isPrefixOf_iff_prefix]

theorem getUsersInfoLoop_eq (lookup : String → Except String SlackUserInfoResponse)
    (userIds : List String) :
    ∀ acc, getUsersInfoLoop lookup userIds acc
      = acc ++ userIds.filterMap (resolvedUser lookup) := by
  induction userIds with
  | nil => intro acc; simp [getUsersInfoLoop]
  | cons userId rest ih =>
    intro acc
    cases hl : lookup userId with
    | error e =>
      simp [getUsersInfoLoop, hl, ih, List.filterMap_cons, resolvedUser]
    | ok r =>
      by_cases ho : r.ok
      · cases hu : r.user with
        | some u =>
          simp [getUsersInfoLoop, hl, ho, hu, ih, List.filterMap_cons, resolvedUser]
        | none =>
          simp [getUsersInfoLoop, hl, ho, hu, ih, List.filterMap_cons, resolvedUser]
      · simp [getUsersInfoLoop, hl, ho, ih, List.filterMap_cons, resolvedUser]

theorem resolved_plus_failed (lookup : String → Except String SlackUserInfoResponse)
    (userIds : List String)
    (hwf : ∀ userId ∈ userIds, lookupWellFormed lookup userId = true) :
    (userIds.filterMap (resolvedUser lookup)).length
      + (userIds.filter (lookupFails lookup)).length = userIds.length := by
  induction userIds with
  | nil => simp
  | cons userId rest ih =>
    have hid := hwf userId (List.mem_cons_self _ _)
    have hrest := ih (fun x hx => hwf x (List.mem_cons_of_mem _ hx))
    cases hl : lookup userId with
    | error e =>
      simp [List.filterMap_cons, List.filter_cons, resolvedUser, lookupFails, hl]
      omega
    | ok r =>
      have hgood : r.ok = true ∧ r.user.isSome = true := by
        have := hid
        rw [lookupWellFormed, hl] at this
        simpa using this
      obtain ⟨u, hu⟩ := Option.isSome_iff_exists.mp hgood.2
      simp [List.filterMap_cons, List.filter_cons, resolvedUser, lookupFails, hl,
        hgood.1, hu]
      omega

theorem uploadFilesLoop_no_finalize (env : UploadEnv) (titles : Option (List String))
    (filePaths : List String) :
    ∀ i fileEntries calls,
      ((uploadFilesLoop env titles filePaths i fileEntries calls).1).filter isFinalizeCall
        = calls.filter isFinalizeCall := by
  induction filePaths with
  | nil => intro i fileEntries calls; simp [uploadFilesLoop]
  | cons filePath rest ih =>
    intro i fileEntries calls
    cases hg : env.getUploadUrlResult (uploadFilename filePath)
        (env.fileContent filePath).length with
    | error e =>
      simp [uploadFilesLoop, hg, List.filter_append, isFinalizeCall]
    | ok slot =>
      cases ht : env.uploadToUrlResult slot.upload_url (env.fileContent filePath)
          (uploadFilename filePath) with
      | error e =>
        simp [uploadFilesLoop, hg, ht, List.filter_append, isFinalizeCall]
      | ok u =>
        simp [uploadFilesLoop, hg, ht, ih, List.filter_append, isFinalizeCall]

theorem uploadFilesLoop_error_of_fail (env : UploadEnv) (titles : Option (List String))
    (filePaths : List String) (h : ∃ p ∈ filePaths, fileStepFails env p = true) :
    ∀ i fileEntries calls,
      ∃ e, (uploadFilesLoop env titles filePaths i fileEntries calls).2
        = Except.error e := by
  induction filePaths with
  | nil => simp at h
  | cons filePath rest ih =>
    intro i fileEntries calls
    cases hg : env.getUploadUrlResult (uploadFilename filePath)
        (env.fileContent filePath).length with
    | error e =>
      exact ⟨e, by simp [uploadFilesLoop, hg]⟩
    | ok slot =>
      cases ht : env.uploadToUrlResult slot.upload_url (env.fileContent filePath)
          (uploadFilename filePath) with
      | error e =>
        exact ⟨e, by simp [uploadFilesLoop, hg, ht]⟩
      | ok u =>
        have hok : fileStepFails env filePath = false := by
          simp [fileStepFails, hg, ht]
        have hrest : ∃ p ∈ rest, fileStepFails env p = true := by
          obtain ⟨q, hq, hfq⟩ := h
          rcases List.mem_cons.mp hq with rfl | hq2
          · rw [hok] at hfq; exact absurd hfq (by simp)
          · exact ⟨q, hq2, hfq⟩
        have := ih hrest (i + 1)
          (fileEntries ++ [{ id := slot.file_id, title := titleAt titles i }])
          (calls ++ [UploadCall.slotRequest (uploadFilename filePath)
              (env.fileContent filePath).length]
            ++ [UploadCall.transfer slot.upload_url (env.fileContent filePath)
              (uploadFilename filePath)])
        simpa [uploadFilesLoop, hg, ht] using this

theorem uploadFilesLoop_success (env : UploadEnv) (titles : Option (List String))
    (filePaths : List String) (h : ∀ p ∈ filePaths, fileStepFails env p = false) :
    ∀ i fileEntries calls,
      (uploadFilesLoop env titles filePaths i fileEntries calls).2
        = Except.ok (fileEntries ++ expectedEntries env titles filePaths i) := by
  induction filePaths with
  | nil => intro i fileEntries calls; simp [uploadFilesLoop, expectedEntries]
  | cons filePath rest ih =>
    intro i fileEntries calls
    have hp := h filePath (List.mem_cons_self _ _)
    cases hg : env.getUploadUrlResult (uploadFilename filePath)
        (env.fileContent filePath).length with
    | error e =>
      rw [fileStepFails, hg] at hp
      simp at hp
    | ok slot =>
      cases ht : env.uploadToUrlResult slot.upload_url (env.fileContent filePath)
          (uploadFilename filePath) with
      | error e =>
        simp [fileStepFails, hg, ht] at hp
      | ok u =>
        have hrest := fun q hq => h q (List.mem_cons_of_mem _ hq)
        have hid : slotFileId env filePath = slot.file_id := by
          simp [slotFileId, hg]
        simp [uploadFilesLoop, hg, ht, ih hrest, expectedEntries, hid]

theorem expectedEntries_length (env : UploadEnv) (titles : Option (List String))
    (filePaths : List String) :
    ∀ i, (expectedEntries env titles filePaths i).length = filePaths.length := by
  induction filePaths with
  | nil => intro i; simp [expectedEntries]
  | cons filePath rest ih => intro i; simp [expectedEntries, ih]

/-- Claim C1, counterexample: `browserRequest` does not omit a key whose
value is `undefined` — with the mapping `\x7b cursor: undefined \x7d` the
serialized form body contains the pair `cursor=undefined`, the key bound to
the literal string `undefined`, refuting the claim at this input. -/
theorem browserRequest_serializes_undefined :
    ("cursor", "undefined")
      ∈ browserRequestFormPairs "xoxc-1" [("cursor", JsValue.undef)] := by decide

/-- Claim C1, amended: a key genuinely absent from the parameter mapping
(and distinct from the fixed `token` key) never appears in the form body
serialized by `browserRequest`; a key that is present with an `undefined`
value, by contrast, is serialized as the literal string `undefined`
(see the counterexample), and omitting such keys is the facade's duty. -/
theorem browserRequest_omits_absent_keys (xoxc : String) (params : Params)
    (k : String) (hk : k ≠ "token") (habsent : ∀ v, (k, v) ∉ params) :
    ∀ s, (k, s) ∉ browserRequestFormPairs xoxc params := by
  intro s hmem
  unfold browserRequestFormPairs at hmem
  rw [List.mem_map] at hmem
  obtain ⟨p, hp, hpe⟩ := hmem
  have hkey : p.1 = k := congrArg Prod.fst hpe
  rcases mem_objSpread _ _ p hp with ⟨w, hw⟩ | ⟨w, hw⟩
  · rw [hkey] at hw
    simp at hw
    exact hk hw.1
  · rw [hkey] at hw
    exact habsent w hw

/-- Claim C1, witness: with a mapping holding only `channel`, the serialized
form body has no `cursor` entry. -/
theorem browserRequest_omits_absent_keys_witness :
    ("cursor", "undefined")
      ∉ browserRequestFormPairs "xoxc-1" [("channel", JsValue.str "C1")] :=
  browserRequest_omits_absent_keys "xoxc-1" [("channel", JsValue.str "C1")] "cursor"
    (by decide) (fun v hv => by simp at hv) "undefined"

/-- Claim C2: if the slot request or the byte transfer fails for any file of
the batch, `uploadFiles` surfaces a single failure and the finalize call
(`completeUpload` / `files.completeUploadExternal`) appears zero times in the
trace of issued calls — no partial finalize ever occurs. -/
theorem uploadFiles_failFast (env : UploadEnv) (filePaths : List String)
    (options : UploadOptions)
    (h : ∃ p ∈ filePaths, fileStepFails env p = true) :
    (∃ e, (uploadFiles env filePaths options).2 = Except.error e) ∧
    ((uploadFiles env filePaths options).1).filter isFinalizeCall = [] := by
  obtain ⟨e, he⟩ := uploadFilesLoop_error_of_fail env options.titles filePaths h 0 [] []
  have hnf := uploadFilesLoop_no_finalize env options.titles filePaths 0 [] []
  unfold uploadFiles
  cases hr : uploadFilesLoop env options.titles filePaths 0 [] [] with
  | mk calls res =>
    rw [hr] at he hnf
    cases res with
    | error e2 =>
      exact ⟨⟨e2, rfl⟩, by simpa using hnf⟩
    | ok entries =>
      simp at he

/-- Claim C2, witness: a one-file batch whose transfer step fails yields a
surfaced failure and an empty finalize trace. -/
theorem uploadFiles_failFast_witness :
    (∃ e, (uploadFiles envFail ["docs/a.txt"] {}).2 = Except.error e) ∧
    ((uploadFiles envFail ["docs/a.txt"] {}).1).filter isFinalizeCall = [] :=
  uploadFiles_failFast envFail ["docs/a.txt"] {}
    ⟨"docs/a.txt", by decide, by decide⟩

/-- Claim C3: the browser transport's failure wrapping is idempotent — a
message already carrying the `Slack API error:` prefix is re-raised
unchanged, and for every message wrapping twice equals wrapping once. -/
theorem wrapError_idempotent (m : String) :
    (jsStartsWith m "Slack API error:" = true → wrapError m = m) ∧
    wrapError (wrapError m) = wrapError m := by
  constructor
  · intro h
    simp [wrapError, h]
  · unfold wrapError
    by_cases h : jsStartsWith m "Slack API error:" = true
    · simp [h]
    · simp [h, wrapped_message_normalized]

/-- Claim C3, witness: a message already carrying the prefix passes through
the wrapper unchanged. -/
theorem wrapError_idempotent_witness :
    wrapError "Slack API error: channel_not_found"
      = "Slack API error: channel_not_found" :=
  (wrapError_idempotent "Slack API error: channel_not_found").1 (by decide)

/-- Claim C4: over a list of identifiers whose non-throwing lookups are
well-formed (as both transports guarantee), `getUsersInfo` returns exactly
`N - K` resolved users where `K` counts the identifiers whose individual
lookup throws; the function is total (every per-item failure is swallowed by
its `catch`), so it never raises. -/
theorem getUsersInfo_failSoft (lookup : String → Except String SlackUserInfoResponse)
    (userIds : List String)
    (hwf : ∀ userId ∈ userIds, lookupWellFormed lookup userId = true) :
    (getUsersInfo lookup userIds).users.length
      = userIds.length - (userIds.filter (lookupFails lookup)).length := by
  have h1 := resolved_plus_failed lookup userIds hwf
  have h2 : (getUsersInfo lookup userIds).users
      = userIds.filterMap (resolvedUser lookup) := by
    simp [getUsersInfo, getUsersInfoLoop_eq]
  rw [h2]
  omega

/-- Claim C4, witness: of three identifiers with exactly one throwing lookup,
exactly two users are resolved. -/
theorem getUsersInfo_failSoft_witness :
    (getUsersInfo lookupW ["U1", "U2", "U3"]).users.length
      = ["U1", "U2", "U3"].length
        - (["U1", "U2", "U3"].filter (lookupFails lookupW)).length :=
  getUsersInfo_failSoft lookupW ["U1", "U2", "U3"] (by decide)

/-- Claim C5, divergence at the failing input: `listConversations` forwards
an empty-string cursor into the outbound mapping (first two conjuncts show
the empty and absent cursors are not equivalent there), while
`getConversationHistory` and `getConversationReplies` omit an empty cursor
entirely, exactly as the claim requires of all three. -/
theorem cursor_omission_divergence :
    ((listConversations { cursor := some "" }).any (fun p => p.1 = "cursor") = true) ∧
    ((listConversations {}).any (fun p => p.1 = "cursor") = false) ∧
    (getConversationHistory "C1" { cursor := some "" }
      = getConversationHistory "C1" {}) ∧
    ((getConversationHistory "C1" { cursor := some "" }).any
        (fun p => p.1 = "cursor") = false) ∧
    (getConversationReplies "C1" "1700000000.000100" { cursor := some "" }
      = getConversationReplies "C1" "1700000000.000100" {}) := by decide

/-- Claim C6, counterexample: `getConversationHistory` places a supplied
`limit` in the outbound mapping as a number, not as its string
representation, refuting the claim that every numeric option is coerced to a
string in the facade. -/
theorem history_limit_not_coerced :
    (("limit", JsValue.num 5) ∈ getConversationHistory "C1" { limit := some 5 }) ∧
    (("limit", JsValue.str "5") ∉ getConversationHistory "C1" { limit := some 5 }) := by
  decide

/-- Claim C6, amended: the facade string-coerces `count` and `page` in
`searchAll` and `length` in `getUploadUrl`, but a truthy `limit` of
`getConversationHistory` (likewise `getConversationReplies` and
`listConversations`) enters the mapping as a number, its stringification
deferred to the transport's serialization. -/
theorem numericOptions_coercion (q f c : String) (n m l k : Nat)
    (hn : n ≠ 0) (hm : m ≠ 0) (hk : k ≠ 0) :
    (("count", JsValue.str (toString n)) ∈ searchAll q { count := some n }) ∧
    (("page", JsValue.str (toString m)) ∈ searchAll q { page := some m }) ∧
    (getUploadUrl f l
      = [("filename", JsValue.str f), ("length", JsValue.str (toString l))]) ∧
    (("limit", JsValue.num k) ∈ getConversationHistory c { limit := some k }) ∧
    (("limit", JsValue.str (toString k)) ∉ getConversationHistory c { limit := some k }) := by
  refine ⟨?_, ?_, rfl, ?_, ?_⟩
  · simp [searchAll, strOptParam, natOptParamStr, hn]
  · simp [searchAll, strOptParam, natOptParamStr, hm]
  · simp [getConversationHistory, strOptParam, optField, natOptParamNum, hk]
  · simp [getConversationHistory, strOptParam, optField, natOptParamNum, hk]

/-- Claim C6, witness: concrete coerced `count`, `page` and `length`, and a
concrete numeric `limit`. -/
theorem numericOptions_coercion_witness :
    (("count", JsValue.str (toString (20 : Nat)))
      ∈ searchAll "deploy" { count := some 20 }) ∧
    (("page", JsValue.str (toString (2 : Nat)))
      ∈ searchAll "deploy" { page := some 2 }) ∧
    (getUploadUrl "a.txt" 5
      = [("filename", JsValue.str "a.txt"), ("length", JsValue.str (toString (5 : Nat)))]) ∧
    (("limit", JsValue.num 7) ∈ getConversationHistory "C1" { limit := some 7 }) ∧
    (("limit", JsValue.str (toString (7 : Nat)))
      ∉ getConversationHistory "C1" { limit := some 7 }) :=
  numericOptions_coercion "deploy" "a.txt" "C1" 20 2 5 7
    (by decide) (by decide) (by decide)

/-- Claim C7, counterexample: the required `length` of `getUploadUrl` does
not appear verbatim — the mapping carries its string form, never the number
itself — and the required `files` of `completeUpload` appears as its JSON
serialization rather than the supplied array. -/
theorem uploadParams_not_verbatim :
    (("length", JsValue.num 5) ∉ getUploadUrl "a.txt" 5) ∧
    (("length", JsValue.str "5") ∈ getUploadUrl "a.txt" 5) ∧
    (completeUpload [{ id := "F001" }] {}
      = [("files", JsValue.str "[\x7b\"id\":\"F001\"\x7d]")]) := by decide

/-- Claim C7, amended: supplied required parameters of string type
(`channel`/`ts` of `markConversationRead`, `query` of `searchAll`, `channel`
of `getConversationHistory`, `filename` of `getUploadUrl`) appear verbatim
under their own keys in the outbound mapping, which is the same for both
transports; the non-string required parameters are deterministically
serialized under their keys — `length` as its decimal string and `files` as
its JSON text. -/
theorem requiredParams_verbatim (c ts q f : String) (l : Nat)
    (files : List FileEntry) (sOpts : SearchOptions)
    (cOpts : CompleteUploadOptions) (hOpts : HistoryOptions) :
    (markConversationRead c ts = [("channel", JsValue.str c), ("ts", JsValue.str ts)]) ∧
    (("query", JsValue.str q) ∈ searchAll q sOpts) ∧
    (("channel", JsValue.str c) ∈ getConversationHistory c hOpts) ∧
    (getUploadUrl f l
      = [("filename", JsValue.str f), ("length", JsValue.str (toString l))]) ∧
    (("files", JsValue.str (jsonFiles files)) ∈ completeUpload files cOpts) := by
  refine ⟨rfl, ?_, ?_, rfl, ?_⟩
  · simp [searchAll]
  · simp [getConversationHistory]
  · simp [completeUpload]

/-- Claim C8: with a falsy `--timestamp`, the `mark-read` action is a
two-call composite — it first issues the history fetch with limit 1, and
then: with zero messages it stops after that fetch (no mark call at all,
hence never one with an undefined timestamp), and with at least one message
it issues exactly one mark call at the first message's timestamp. -/
theorem markRead_noTimestamp (hist : Option (List SlackMessage)) (channelId : String)
    (timestamp : Option String)
    (hfalsy : timestamp = none ∨ timestamp = some "") :
    ((markReadAction hist channelId timestamp).head?
      = some ("conversations.history",
          getConversationHistory channelId { limit := some 1 })) ∧
    (hist.getD [] = [] →
      markReadAction hist channelId timestamp
        = [("conversations.history",
            getConversationHistory channelId { limit := some 1 })]) ∧
    (∀ m ms, hist.getD [] = m :: ms →
      markReadAction hist channelId timestamp
        = [("conversations.history",
            getConversationHistory channelId { limit := some 1 }),
           ("conversations.mark", markConversationRead channelId m.ts)]) := by
  rcases hfalsy with rfl | rfl <;>
    exact ⟨by cases hmm : hist.getD [] <;> simp [markReadAction, hmm],
      fun hm => by simp [markReadAction, hm],
      fun m ms hm => by simp [markReadAction, hm]⟩

/-- Claim C8, witness: with no timestamp and an empty conversation, the
action issues only the history fetch and no mark call. -/
theorem markRead_noTimestamp_witness :
    markReadAction (some []) "C042" none
      = [("conversations.history", getConversationHistory "C042" { limit := some 1 })] :=
  (markRead_noTimestamp (some []) "C042" none (Or.inl rfl)).2.1 rfl

/-- Claim C9: `getUsersInfo` always returns an envelope with `ok := true`
(even when every lookup fails, the list then being empty), and the resolved
users are exactly the order-preserving `filterMap` of the input identifiers
through the per-identifier resolution — so they appear in the same relative
order as their identifiers. -/
theorem getUsersInfo_ok_ordered (lookup : String → Except String SlackUserInfoResponse)
    (userIds : List String) :
    (getUsersInfo lookup userIds).ok = true ∧
    (getUsersInfo lookup userIds).users
      = userIds.filterMap (resolvedUser lookup) :=
  ⟨rfl, by simp [getUsersInfo, getUsersInfoLoop_eq]⟩

/-- Claim C10: when every file of the batch passes the slot and transfer
steps, the trace of `uploadFiles` contains exactly one finalize call, whose
entry list has one entry per input path in input order — entry `i` carrying
the slot request's file identifier for path `i` and a title exactly when a
truthy title is supplied at index `i` — and whose options are forwarded from
the caller. -/
theorem uploadFiles_success_finalizeOnce (env : UploadEnv) (filePaths : List String)
    (options : UploadOptions)
    (h : ∀ p ∈ filePaths, fileStepFails env p = false) :
    ((uploadFiles env filePaths options).1).filter isFinalizeCall
      = [UploadCall.finalize (expectedEntries env options.titles filePaths 0)
          options.channel_id options.thread_ts options.initial_comment] ∧
    (expectedEntries env options.titles filePaths 0).length = filePaths.length := by
  refine ⟨?_, expectedEntries_length env options.titles filePaths 0⟩
  have hs := uploadFilesLoop_success env options.titles filePaths h 0 [] []
  have hnf := uploadFilesLoop_no_finalize env options.titles filePaths 0 [] []
  unfold uploadFiles
  cases hr : uploadFilesLoop env options.titles filePaths 0 [] [] with
  | mk calls res =>
    rw [hr] at hs hnf
    cases res with
    | error e2 => simp at hs
    | ok entries =>
      simp at hs
      subst hs
      simp [List.filter_append, isFinalizeCall, hnf]

/-- Claim C10, witness: a fully successful two-file batch finalizes exactly
once with two entries, the first carrying the supplied title. -/
theorem uploadFiles_success_finalizeOnce_witness :
    ((uploadFiles envOk ["docs/a.txt", "b.md"]
        { titles := some ["Title A"] }).1).filter isFinalizeCall
      = [UploadCall.finalize
          (expectedEntries envOk (some ["Title A"]) ["docs/a.txt", "b.md"] 0)
          none none none] ∧
    (expectedEntries envOk (some ["Title A"]) ["docs/a.txt", "b.md"] 0).length = 2 :=
  uploadFiles_success_finalizeOnce envOk ["docs/a.txt", "b.md"]
    { titles := some ["Title A"] } (by decide)
